import Mathlib

/-!
Verification development for the deepseek-mpi repository.

The definitions below are shallow embeddings of the C sources:
`src/input_chunker.c`, `src/api_client.c`, `src/main.c`, `src/app_config.c`.
Machine integers (`size_t`, `int`, `long`) are modelled as `Nat`/`Int`;
the values reachable in the modelled scenarios stay far below the
word-size bounds, so no wrap-around modelling is required.
-/

namespace DeepseekMpi

/-! ## Partitioner (src/input_chunker.c) -/

/-- Embedding of `ChunkCursor` from `src/input_chunker.h`.  `rank` and
`world_size` are `int` in C but are always non-negative in a run
(`MPI_Comm_rank`/`MPI_Comm_size`), so they are modelled as `Nat`. -/
structure ChunkCursor where
  chunk_size : Nat
  total_length : Nat
  rank : Nat
  world_size : Nat
  cursor : Nat
  deriving Repr, DecidableEq

/-- Embedding of `chunk_cursor_init` (src/input_chunker.c:3-12); the
`world_size <= 0 ? 1 : world_size` clamp becomes a zero test on `Nat`. -/
def chunk_cursor_init (chunk_size total_length rank world_size : Nat) : ChunkCursor :=
  { chunk_size := chunk_size
    total_length := total_length
    rank := rank
    world_size := if world_size = 0 then 1 else world_size
    cursor := 0 }

/-- Embedding of `chunk_cursor_next` (src/input_chunker.c:14-38).  The C
function returns 0/1 and writes `*start`, `*end`, `*chunk_index` and
mutates the cursor; here it returns `none` for "done" and otherwise
`some ((start, end, chunk_index), advanced cursor)`. -/
def chunk_cursor_next (cur : ChunkCursor) : Option ((Nat × Nat × Nat) × ChunkCursor) :=
  if cur.chunk_size = 0 then none
  else
    let global_index := cur.rank + cur.cursor * cur.world_size
    let begin_ := global_index * cur.chunk_size
    if begin_ ≥ cur.total_length then none
    else
      let finish0 := begin_ + cur.chunk_size
      let finish := if finish0 > cur.total_length then cur.total_length else finish0
      some ((begin_, finish, global_index), { cur with cursor := cur.cursor + 1 })

/-- Repeatedly calling `chunk_cursor_next` until it reports "done",
collecting the emitted `(start, end, chunk_index)` triples.  `fuel`
bounds the number of calls; any fuel past the stopping point yields the
same list. -/
def chunk_cursor_run (cur : ChunkCursor) : Nat → List (Nat × Nat × Nat)
  | 0 => []
  | fuel + 1 =>
    match chunk_cursor_next cur with
    | none => []
    | some (t, cur') => t :: chunk_cursor_run cur' fuel

/-- The full list of chunks one rank obtains from its cursor: the loop in
`process_chunks` (src/main.c:563) runs `chunk_cursor_next` until it
returns 0.  Fuel `L + 1` is enough: every emitted local counter `c`
satisfies `c ≤ (rank + c*W)*S < L`. -/
def rank_chunks (S L r W : Nat) : List (Nat × Nat × Nat) :=
  chunk_cursor_run (chunk_cursor_init S L r W) (L + 1)

/-- The triple emitted for local counter `c` of rank `r`. -/
def chunkOf (S L r W c : Nat) : Nat × Nat × Nat :=
  let g := r + c * W
  let b := g * S
  let f0 := b + S
  (b, if f0 > L then L else f0, g)

theorem chunk_cursor_run_spec (S L r W : Nat) (hS : 0 < S) :
    ∀ (f c₀ : Nat), ∃ k, k ≤ f ∧
      chunk_cursor_run ⟨S, L, r, W, c₀⟩ f =
        (List.range k).map (fun i => chunkOf S L r W (c₀ + i)) ∧
      (∀ i, i < k → (r + (c₀ + i) * W) * S < L) ∧
      (k < f → ¬ (r + (c₀ + k) * W) * S < L) := by
  intro f
  induction f with
  | zero =>
    intro c₀
    exact ⟨0, Nat.le_refl 0, rfl, fun i h => absurd h (Nat.not_lt_zero i), fun h => absurd h (Nat.not_lt_zero 0)⟩
  | succ f ih =>
    intro c₀
    by_cases hstop : (r + c₀ * W) * S ≥ L
    · refine ⟨0, Nat.zero_le _, ?_, fun i h => absurd h (Nat.not_lt_zero i), fun _ => ?_⟩
      · simp [chunk_cursor_run, chunk_cursor_next, Nat.pos_iff_ne_zero.mp hS, hstop]
      · simpa using hstop
    · push_neg at hstop
      obtain ⟨k', hk'f, hlist, hlt, hstop'⟩ := ih (c₀ + 1)
      refine ⟨k' + 1, Nat.succ_le_succ hk'f, ?_, ?_, ?_⟩
      · have hrun : chunk_cursor_run ⟨S, L, r, W, c₀⟩ (f + 1) =
            chunkOf S L r W c₀ :: chunk_cursor_run ⟨S, L, r, W, c₀ + 1⟩ f := by
          simp only [chunk_cursor_run, chunk_cursor_next]
          rw [if_neg (Nat.pos_iff_ne_zero.mp hS), if_neg (Nat.not_le_of_lt hstop)]
          rfl
        rw [hrun, hlist, List.range_succ_eq_map, List.map_cons, List.map_map, List.cons.injEq]
        constructor
        · simp [chunkOf]
        · apply List.map_congr_left
          intro i _
          simp only [Function.comp]
          congr 1
          omega
      · intro i hi
        cases i with
        | zero => simpa using hstop
        | succ j =>
          have := hlt j (Nat.lt_of_succ_lt_succ hi)
          have hidx : c₀ + 1 + j = c₀ + (j + 1) := by omega
          rwa [hidx] at this
      · intro hk
        have := hstop' (Nat.lt_of_succ_lt_succ hk)
        have hidx : c₀ + 1 + k' = c₀ + (k' + 1) := by omega
        rwa [hidx] at this

/-- `rank_chunks` is exactly the strided chunks of counters `0, 1, …` whose
start offset is below the total length. -/
theorem rank_chunks_eq (S L r W : Nat) (hS : 0 < S) (hW : 0 < W) :
    ∃ k, rank_chunks S L r W = (List.range k).map (fun i => chunkOf S L r W i) ∧
      (∀ i, i < k → (r + i * W) * S < L) ∧
      (∀ c, (r + c * W) * S < L → c < k) := by
  have hinit : chunk_cursor_init S L r W = ⟨S, L, r, W, 0⟩ := by
    simp [chunk_cursor_init, Nat.pos_iff_ne_zero.mp hW]
  obtain ⟨k, hkf, hlist, hlt, hstop⟩ := chunk_cursor_run_spec S L r W hS (L + 1) 0
  refine ⟨k, ?_, ?_, ?_⟩
  · rw [rank_chunks, hinit, hlist]
    apply List.map_congr_left
    intro i _
    simp
  · intro i hi
    have := hlt i hi
    simpa using this
  · intro c hc
    by_contra hck
    push_neg at hck
    -- the loop stops no later than counter `L`, so `k < L + 1`
    have hkL : k < L + 1 := by
      rcases Nat.lt_or_ge k (L + 1) with h | h
      · exact h
      · exfalso
        have hLk : L < k := by omega
        have := hlt L hLk
        have hge : L ≤ (r + L * W) * S := by
          calc L ≤ L * W * S := by
                have h1 : L ≤ L * W := Nat.le_mul_of_pos_right L hW
                have h2 : L * W ≤ L * W * S := Nat.le_mul_of_pos_right (L * W) hS
                omega
            _ ≤ (r + L * W) * S := Nat.mul_le_mul_right S (Nat.le_add_left _ _)
        simp at this
        omega
    have hstopk := hstop hkL
    -- starts are monotone in the counter, contradiction with `hc`
    have hmono : (r + k * W) * S ≤ (r + c * W) * S := by
      have : k * W ≤ c * W := Nat.mul_le_mul_right W hck
      exact Nat.mul_le_mul_right S (by omega)
    simp at hstopk
    omega

theorem mem_rank_chunks (S L r W : Nat) (hS : 0 < S) (hW : 0 < W) (t : Nat × Nat × Nat) :
    t ∈ rank_chunks S L r W ↔ ∃ c, (r + c * W) * S < L ∧ t = chunkOf S L r W c := by
  obtain ⟨k, hlist, hlt, hfull⟩ := rank_chunks_eq S L r W hS hW
  rw [hlist]
  constructor
  · intro ht
    obtain ⟨i, hi, hti⟩ := List.mem_map.mp ht
    exact ⟨i, hlt i (List.mem_range.mp hi), hti.symm⟩
  · rintro ⟨c, hc, rfl⟩
    exact List.mem_map.mpr ⟨c, List.mem_range.mpr (hfull c hc), rfl⟩

theorem chunkOf_end_le (S L r W c : Nat) : (chunkOf S L r W c).2.1 ≤ L ∨
    (chunkOf S L r W c).2.1 = (r + c * W) * S + S := by
  simp only [chunkOf]
  split
  · exact Or.inl (Nat.le_refl L)
  · exact Or.inr rfl

/-- A byte `b` lies in the range of `chunkOf c` exactly when its chunk
number `b / S` is `r + c * W`. -/
theorem mem_chunkOf_iff (S L r W c b : Nat) (hS : 0 < S) (hbL : b < L) :
    ((chunkOf S L r W c).1 ≤ b ∧ b < (chunkOf S L r W c).2.1) ↔ b / S = r + c * W := by
  simp only [chunkOf]
  constructor
  · rintro ⟨h1, h2⟩
    have h2' : b < (r + c * W) * S + S := by
      by_cases hcase : (r + c * W) * S + S > L
      · rw [if_pos hcase] at h2
        omega
      · rwa [if_neg hcase] at h2
    exact Nat.div_eq_of_lt_le h1 (by rw [Nat.succ_mul]; exact h2')
  · intro hdiv
    have h1 : (r + c * W) * S ≤ b := by
      rw [← hdiv]
      exact Nat.div_mul_le_self b S
    have h2 : b < (r + c * W) * S + S := by
      rw [← hdiv]
      have hdm := Nat.div_add_mod b S
      have hm := Nat.mod_lt b hS
      have hb : b < S * (b / S) + S := by
        calc b = S * (b / S) + b % S := hdm.symm
          _ < S * (b / S) + S := Nat.add_lt_add_left hm _
      rwa [Nat.mul_comm] at hb
    refine ⟨h1, ?_⟩
    split
    · omega
    · omega

theorem gidx_eq_of_overlap (S L : Nat) (hS : 0 < S) (r₁ r₂ W c₁ c₂ b : Nat)
    (hb : b < L)
    (m₁ : (chunkOf S L r₁ W c₁).1 ≤ b ∧ b < (chunkOf S L r₁ W c₁).2.1)
    (m₂ : (chunkOf S L r₂ W c₂).1 ≤ b ∧ b < (chunkOf S L r₂ W c₂).2.1) :
    r₁ + c₁ * W = r₂ + c₂ * W := by
  have h₁ := (mem_chunkOf_iff S L r₁ W c₁ b hS hb).mp m₁
  have h₂ := (mem_chunkOf_iff S L r₂ W c₂ b hS hb).mp m₂
  omega

theorem rank_counter_eq (W r₁ r₂ c₁ c₂ : Nat) (hW : 0 < W) (hr₁ : r₁ < W) (hr₂ : r₂ < W)
    (h : r₁ + c₁ * W = r₂ + c₂ * W) : r₁ = r₂ ∧ c₁ = c₂ := by
  have hmod : r₁ = r₂ := by
    have e₁ : (r₁ + c₁ * W) % W = r₁ := by
      rw [Nat.add_mul_mod_self_right]
      exact Nat.mod_eq_of_lt hr₁
    have e₂ : (r₂ + c₂ * W) % W = r₂ := by
      rw [Nat.add_mul_mod_self_right]
      exact Nat.mod_eq_of_lt hr₂
    rw [← e₁, ← e₂, h]
  refine ⟨hmod, ?_⟩
  have : c₁ * W = c₂ * W := by omega
  exact Nat.eq_of_mul_eq_mul_right hW this

/-- C1: for every chunk_size > 0, total_length ≥ 0 and world_size ≥ 1, the
byte ranges that `chunk_cursor_next` hands to the ranks 0..world_size-1
(each rank calling it until it reports "done") partition [0, total_length):
every byte below total_length is covered by a returned range, no byte is
covered by two distinct returned ranges, and no global chunk index is
returned twice cluster-wide. -/
theorem chunk_partition_total_disjoint (S L W : Nat) (hS : 0 < S) (hW : 1 ≤ W) :
    (∀ b, b < L ↔ ∃ r, r < W ∧ ∃ t ∈ rank_chunks S L r W, t.1 ≤ b ∧ b < t.2.1) ∧
    (∀ r₁ r₂ t₁ t₂ b, r₁ < W → r₂ < W →
      t₁ ∈ rank_chunks S L r₁ W → t₂ ∈ rank_chunks S L r₂ W →
      t₁.1 ≤ b → b < t₁.2.1 → t₂.1 ≤ b → b < t₂.2.1 → r₁ = r₂ ∧ t₁ = t₂) ∧
    ((List.range W).flatMap (fun r => (rank_chunks S L r W).map (fun t => t.2.2))).Nodup := by
  refine ⟨?_, ?_, ?_⟩
  · -- totality: union of all ranks' ranges = [0, L)
    intro b
    constructor
    · intro hbL
      set g := b / S with hgdef
      have hg : g % W + g / W * W = g := by
        rw [Nat.mul_comm]
        exact Nat.mod_add_div g W
      refine ⟨g % W, Nat.mod_lt g hW, chunkOf S L (g % W) W (g / W), ?_, ?_⟩
      · refine (mem_rank_chunks S L (g % W) W hS hW _).mpr ⟨g / W, ?_, rfl⟩
        rw [hg]
        exact Nat.lt_of_le_of_lt (Nat.div_mul_le_self b S) hbL
      · exact (mem_chunkOf_iff S L (g % W) W (g / W) b hS hbL).mpr hg.symm
    · rintro ⟨r, hrW, t, ht, hb1, hb2⟩
      obtain ⟨c, hc, rfl⟩ := (mem_rank_chunks S L r W hS hW t).mp ht
      simp only [chunkOf] at hb2
      split at hb2
      · exact hb2
      · omega
  · -- disjointness: no byte lies in two distinct returned ranges
    intro r₁ r₂ t₁ t₂ b hr₁ hr₂ ht₁ ht₂ hb11 hb12 hb21 hb22
    obtain ⟨c₁, hc₁, rfl⟩ := (mem_rank_chunks S L r₁ W hS hW t₁).mp ht₁
    obtain ⟨c₂, hc₂, rfl⟩ := (mem_rank_chunks S L r₂ W hS hW t₂).mp ht₂
    have hbL : b < L := by
      simp only [chunkOf] at hb12
      split at hb12
      · exact hb12
      · omega
    have hg := gidx_eq_of_overlap S L hS r₁ r₂ W c₁ c₂ b hbL ⟨hb11, hb12⟩ ⟨hb21, hb22⟩
    obtain ⟨hr, hcc⟩ := rank_counter_eq W r₁ r₂ c₁ c₂ hW hr₁ hr₂ hg
    subst hr hcc
    exact ⟨rfl, rfl⟩
  · -- no duplicate global index cluster-wide
    rw [List.nodup_flatMap]
    constructor
    · intro r hr
      obtain ⟨k, hlist, _, _⟩ := rank_chunks_eq S L r W hS hW
      rw [hlist, List.map_map]
      have : ((fun t : Nat × Nat × Nat => t.2.2) ∘ fun i => chunkOf S L r W i) =
          fun i => r + i * W := rfl
      rw [this]
      refine List.Nodup.map ?_ (List.nodup_range k)
      intro i₁ i₂ h
      have := rank_counter_eq W r r i₁ i₂ hW (List.mem_range.mp hr) (List.mem_range.mp hr) h
      exact this.2
    · have hpw := List.pairwise_lt_range W
      refine hpw.imp_of_mem ?_
      intro r₁ r₂ h₁ h₂ hlt
      intro x hx₁ hx₂
      obtain ⟨t₁, ht₁, hxt₁⟩ := List.mem_map.mp hx₁
      obtain ⟨t₂, ht₂, hxt₂⟩ := List.mem_map.mp hx₂
      obtain ⟨c₁, _, rfl⟩ := (mem_rank_chunks S L r₁ W hS hW t₁).mp ht₁
      obtain ⟨c₂, _, rfl⟩ := (mem_rank_chunks S L r₂ W hS hW t₂).mp ht₂
      have hg : r₁ + c₁ * W = r₂ + c₂ * W := by
        simp only [chunkOf] at hxt₁ hxt₂
        omega
      have := rank_counter_eq W r₁ r₂ c₁ c₂ hW (List.mem_range.mp h₁) (List.mem_range.mp h₂) hg
      omega

/-- Witness for C1 at chunk_size = 4, total_length = 11, world_size = 2. -/
theorem chunk_partition_total_disjoint_witness :
    (0 < 4 ∧ 1 ≤ 2) ∧
    ((∀ b, b < 11 ↔ ∃ r, r < 2 ∧ ∃ t ∈ rank_chunks 4 11 r 2, t.1 ≤ b ∧ b < t.2.1) ∧
     (∀ r₁ r₂ t₁ t₂ b, r₁ < 2 → r₂ < 2 →
       t₁ ∈ rank_chunks 4 11 r₁ 2 → t₂ ∈ rank_chunks 4 11 r₂ 2 →
       t₁.1 ≤ b → b < t₁.2.1 → t₂.1 ≤ b → b < t₂.2.1 → r₁ = r₂ ∧ t₁ = t₂) ∧
     ((List.range 2).flatMap (fun r => (rank_chunks 4 11 r 2).map (fun t => t.2.2))).Nodup) :=
  ⟨⟨by decide, by decide⟩, chunk_partition_total_disjoint 4 11 2 (by decide) (by decide)⟩

/-! ## Backend client (src/api_client.c) -/

/-- Embedding of `ApiClientError` from `src/api_client.h`. -/
inductive ApiClientError where
  | none
  | permanent
  | http
  | network
  deriving Repr, DecidableEq

/-- Abstract outcome of one `curl` iteration inside the retry loop of
`api_client_send`: `allocFail` stands for a failed `curl_easy_init` or
header allocation (src/api_client.c:316,340,357,374), `transport` for
`curl_easy_perform` returning a code other than `CURLE_OK`, and
`status code body` for a completed exchange with the given HTTP status
and response body bytes. -/
inductive AttemptOutcome where
  | allocFail
  | transport
  | status (code : Int) (body : String)
  deriving Repr, DecidableEq

/-- The slice of `ProgramConfig` (src/app_config.h) read by the modelled
code.  `provider_anthropic` abstracts `provider == API_PROVIDER_ANTHROPIC`
and `has_key` abstracts `client->api_key != NULL` (an explicit key or a
resolvable environment variable, per `api_client_init`). -/
structure ProgramConfig where
  chunk_size : Nat
  max_request_bytes : Nat
  max_retries : Int
  retry_delay_ms : Int
  network_retry_limit : Int
  dry_run : Bool
  provider_anthropic : Bool
  has_key : Bool
  rank : Nat
  world_size : Nat
  deriving Repr, DecidableEq

/-- Result of one `api_client_send` call: the C return value (`0`/`-1`),
the value stored through `error_type`, the response buffer contents on
success, the number of `curl_easy_perform` calls made, and the argument
of each `sleep_millis` call, in order. -/
structure SendResult where
  rc : Int
  error_type : ApiClientError
  response : Option String
  attempts_used : Nat
  delays : List Int
  deriving Repr, DecidableEq

/-- `max_delay` as computed in src/api_client.c:304-307 (`base_delay * 8`,
with an overflow guard that cannot fire for the `Int` model). -/
def backoff_max (base : Int) : Int :=
  if base * 8 < base then base else base * 8

/-- The delay update at src/api_client.c:428-431. -/
def backoff_step (maxd d : Int) : Int :=
  if d < maxd then (if d * 2 > maxd then maxd else d * 2) else d

/-- The value of `delay` before the (n+1)-st sleep, for a given base. -/
def backoff_delay (base : Int) : Nat → Int
  | 0 => base
  | n + 1 => backoff_step (backoff_max base) (backoff_delay base n)

/-- The synthetic dry-run response written at src/api_client.c:284. -/
def dry_run_response (chunk_index : Nat) : String :=
  "\x7b\"chunk\":" ++ toString chunk_index ++ ",\"status\":\"dry-run\"\x7d"

/-- The retry loop of `api_client_send` (src/api_client.c:311-432).
`remaining` counts the retries still allowed (`attempts - attempt` in C,
so the C condition `attempt >= attempts` is `remaining = 0`); `attempt`
counts the iterations performed so far; `delay` is the current backoff
value.  The Anthropic key/header code (src/api_client.c:327-370) is
summarised by its two outcomes: missing key fails PERMANENT, and a header
allocation failure is an `allocFail` attempt outcome. -/
def send_loop (cfg : ProgramConfig) (outcomes : Nat → AttemptOutcome) (maxd : Int) :
    Nat → Nat → Int → SendResult
  | remaining, attempt, delay =>
    if cfg.provider_anthropic && !cfg.has_key then
      { rc := -1, error_type := .permanent, response := Option.none,
        attempts_used := attempt, delays := [] }
    else
      match outcomes attempt with
      | .allocFail =>
        { rc := -1, error_type := .permanent, response := Option.none,
          attempts_used := attempt, delays := [] }
      | .transport =>
        match remaining with
        | 0 =>
          { rc := -1, error_type := .network, response := Option.none,
            attempts_used := attempt + 1, delays := [] }
        | rem + 1 =>
          let r := send_loop cfg outcomes maxd rem (attempt + 1) (backoff_step maxd delay)
          { r with delays := delay :: r.delays }
      | .status code body =>
        if 200 ≤ code ∧ code < 300 then
          { rc := 0, error_type := .none, response := some body,
            attempts_used := attempt + 1, delays := [] }
        else if code = 0 ∨ code = 408 ∨ code = 429 ∨ 500 ≤ code then
          match remaining with
          | 0 =>
            { rc := -1, error_type := .network, response := Option.none,
              attempts_used := attempt + 1, delays := [] }
          | rem + 1 =>
            let r := send_loop cfg outcomes maxd rem (attempt + 1) (backoff_step maxd delay)
            { r with delays := delay :: r.delays }
        else
          { rc := -1, error_type := .http, response := Option.none,
            attempts_used := attempt + 1, delays := [] }

/-- Embedding of `api_client_send` (src/api_client.c:262-439).  The
null-pointer guard and the pre-loop payload allocation failure (both of
which also yield `-1`/PERMANENT) are outside the model.  `attempts`
mirrors `max_retries < 0 ? 0 : max_retries`; the two base-delay clamps
mirror lines 299-302 (the second is dead code and kept verbatim). -/
def api_client_send (cfg : ProgramConfig) (chunk_len chunk_index : Nat)
    (outcomes : Nat → AttemptOutcome) : SendResult :=
  if chunk_len > cfg.max_request_bytes then
    { rc := -1, error_type := .permanent, response := Option.none,
      attempts_used := 0, delays := [] }
  else if cfg.dry_run then
    { rc := 0, error_type := .none, response := some (dry_run_response chunk_index),
      attempts_used := 0, delays := [] }
  else
    let attempts := cfg.max_retries.toNat
    let base0 := if cfg.retry_delay_ms > 0 then cfg.retry_delay_ms else 100
    let base := if base0 ≤ 0 then 100 else base0
    send_loop cfg outcomes (backoff_max base) attempts 0 base

/-- An attempt outcome the retry loop classifies as transient, i.e. as a
NETWORK failure (src/api_client.c:412-415): a transport failure, or a
completed exchange with status 0, 408, 429 or ≥ 500 (and not 2xx). -/
def isTransient (o : AttemptOutcome) : Prop :=
  o = .transport ∨
    ∃ c b, o = .status c b ∧ ¬ (200 ≤ c ∧ c < 300) ∧ (c = 0 ∨ c = 408 ∨ c = 429 ∨ 500 ≤ c)

/-- The base delay `api_client_send` derives from `retry_delay_ms`
(src/api_client.c:299-302). -/
def send_base_delay (retry_delay_ms : Int) : Int :=
  if retry_delay_ms > 0 then retry_delay_ms else 100

theorem send_base_delay_pos (rd : Int) : 1 ≤ send_base_delay rd := by
  unfold send_base_delay
  split <;> omega

/-- On the non-dry-run path without an oversized chunk, `api_client_send`
is its retry loop. -/
theorem api_client_send_eq_loop (cfg : ProgramConfig) (chunk_len chunk_index : Nat)
    (outcomes : Nat → AttemptOutcome)
    (hlen : chunk_len ≤ cfg.max_request_bytes) (hdry : cfg.dry_run = false) :
    api_client_send cfg chunk_len chunk_index outcomes =
      send_loop cfg outcomes (backoff_max (send_base_delay cfg.retry_delay_ms))
        cfg.max_retries.toNat 0 (send_base_delay cfg.retry_delay_ms) := by
  unfold api_client_send
  rw [if_neg (by omega), hdry]
  simp only [Bool.false_eq_true, if_false]
  have hbase : (if (if cfg.retry_delay_ms > 0 then cfg.retry_delay_ms else 100) ≤ 0 then 100
      else if cfg.retry_delay_ms > 0 then cfg.retry_delay_ms else 100) =
      send_base_delay cfg.retry_delay_ms := by
    unfold send_base_delay
    split <;> split <;> omega
  rw [hbase]

theorem send_loop_network_of_all_transient (cfg : ProgramConfig)
    (outcomes : Nat → AttemptOutcome) (maxd : Int)
    (hkey : (cfg.provider_anthropic && !cfg.has_key) = false)
    (htr : ∀ n, isTransient (outcomes n)) :
    ∀ remaining attempt delay,
      (send_loop cfg outcomes maxd remaining attempt delay).rc = -1 ∧
      (send_loop cfg outcomes maxd remaining attempt delay).error_type = .network := by
  intro remaining
  induction remaining with
  | zero =>
    intro attempt delay
    rw [send_loop, hkey]
    simp only [Bool.false_eq_true, if_false]
    rcases htr attempt with h | ⟨c, b, h, hns, htr'⟩
    · rw [h]
      exact ⟨rfl, rfl⟩
    · rw [h]
      simp only
      rw [if_neg hns, if_pos htr']
      exact ⟨rfl, rfl⟩
  | succ rem ih =>
    intro attempt delay
    rw [send_loop, hkey]
    simp only [Bool.false_eq_true, if_false]
    rcases htr attempt with h | ⟨c, b, h, hns, htr'⟩
    · rw [h]
      simpa using ih (attempt + 1) (backoff_step maxd delay)
    · rw [h]
      simp only
      rw [if_neg hns, if_pos htr']
      simpa using ih (attempt + 1) (backoff_step maxd delay)

theorem send_loop_http_first_nontransient (cfg : ProgramConfig)
    (outcomes : Nat → AttemptOutcome) (maxd : Int) (code : Int) (body : String)
    (hkey : (cfg.provider_anthropic && !cfg.has_key) = false)
    (hout : outcomes 0 = .status code body)
    (hns : ¬ (200 ≤ code ∧ code < 300))
    (hnt : ¬ (code = 0 ∨ code = 408 ∨ code = 429 ∨ 500 ≤ code)) :
    ∀ remaining delay,
      send_loop cfg outcomes maxd remaining 0 delay =
        { rc := -1, error_type := .http, response := Option.none,
          attempts_used := 1, delays := [] } := by
  intro remaining delay
  cases remaining <;>
    · rw [send_loop, hkey]
      simp only [Bool.false_eq_true, if_false]
      rw [hout]
      simp only
      rw [if_neg hns, if_neg hnt]

/-- C2 counterexample: with max_retries = 3, a persistent non-transient
HTTP failure (404) is NOT retried like a NETWORK failure: the call performs
exactly one attempt and sleeps zero times, while the same configuration
facing a persistent 503 performs four attempts with three backoff sleeps. -/
theorem http_failure_not_retried_cex :
    (api_client_send
        { chunk_size := 4, max_request_bytes := 100, max_retries := 3, retry_delay_ms := 500,
          network_retry_limit := 2, dry_run := false, provider_anthropic := false,
          has_key := true, rank := 0, world_size := 1 } 10 0
        (fun _ => .status 404 "")).attempts_used = 1 ∧
    (api_client_send
        { chunk_size := 4, max_request_bytes := 100, max_retries := 3, retry_delay_ms := 500,
          network_retry_limit := 2, dry_run := false, provider_anthropic := false,
          has_key := true, rank := 0, world_size := 1 } 10 0
        (fun _ => .status 404 "")).delays = [] ∧
    (api_client_send
        { chunk_size := 4, max_request_bytes := 100, max_retries := 3, retry_delay_ms := 500,
          network_retry_limit := 2, dry_run := false, provider_anthropic := false,
          has_key := true, rank := 0, world_size := 1 } 10 0
        (fun _ => .status 404 "")).error_type = .http ∧
    (api_client_send
        { chunk_size := 4, max_request_bytes := 100, max_retries := 3, retry_delay_ms := 500,
          network_retry_limit := 2, dry_run := false, provider_anthropic := false,
          has_key := true, rank := 0, world_size := 1 } 10 0
        (fun _ => .status 503 "")).attempts_used = 4 := by
  refine ⟨?_, ?_, ?_, ?_⟩ <;> decide

/-- C2 (amended): a non-transient HTTP failure (a completed exchange with
a non-2xx status other than 0, 408, 429 or ≥ 500, e.g. 404) is never
retried: even with max_retries = R ≥ 1 the loop exits after the first such
attempt, with no backoff sleep, reporting an HTTP failure.  Only
NETWORK-classified failures are retried. -/
theorem http_nontransient_fails_immediately (cfg : ProgramConfig)
    (chunk_len chunk_index : Nat) (outcomes : Nat → AttemptOutcome)
    (code : Int) (body : String)
    (_hR : 1 ≤ cfg.max_retries)
    (hlen : chunk_len ≤ cfg.max_request_bytes) (hdry : cfg.dry_run = false)
    (hkey : cfg.provider_anthropic = false ∨ cfg.has_key = true)
    (hout : outcomes 0 = .status code body)
    (hns : ¬ (200 ≤ code ∧ code < 300))
    (hnt : ¬ (code = 0 ∨ code = 408 ∨ code = 429 ∨ 500 ≤ code)) :
    api_client_send cfg chunk_len chunk_index outcomes =
      { rc := -1, error_type := .http, response := Option.none,
        attempts_used := 1, delays := [] } := by
  have hkey' : (cfg.provider_anthropic && !cfg.has_key) = false := by
    rcases hkey with h | h <;> simp [h]
  rw [api_client_send_eq_loop cfg chunk_len chunk_index outcomes hlen hdry]
  exact send_loop_http_first_nontransient cfg outcomes _ code body hkey' hout hns hnt _ _

/-- Witness for the amended C2 at a concrete 404 scenario. -/
theorem http_nontransient_fails_immediately_witness :
    api_client_send
        { chunk_size := 4, max_request_bytes := 100, max_retries := 3, retry_delay_ms := 500,
          network_retry_limit := 2, dry_run := false, provider_anthropic := false,
          has_key := true, rank := 0, world_size := 1 } 7 0
        (fun _ => .status 404 "nope") =
      { rc := -1, error_type := .http, response := Option.none,
        attempts_used := 1, delays := [] } :=
  http_nontransient_fails_immediately _ 7 0 _ 404 "nope" (by decide) (by decide) rfl
    (Or.inl rfl) rfl (by omega) (by omega)

theorem backoff_max_eq (base : Int) (hb : 1 ≤ base) : backoff_max base = 8 * base := by
  unfold backoff_max
  rw [if_neg (by omega : ¬ base * 8 < base)]
  omega

theorem backoff_delay_bounds (base : Int) (hb : 1 ≤ base) :
    ∀ n, base ≤ backoff_delay base n ∧ backoff_delay base n ≤ 8 * base := by
  intro n
  induction n with
  | zero => exact ⟨Int.le_refl base, by simp only [backoff_delay]; omega⟩
  | succ n ih =>
    have hmax := backoff_max_eq base hb
    simp only [backoff_delay, backoff_step, hmax]
    split <;> [skip; omega]
    split <;> omega

theorem backoff_delay_mono (base : Int) (hb : 1 ≤ base) (n : Nat) :
    backoff_delay base n ≤ backoff_delay base (n + 1) := by
  have hbd := backoff_delay_bounds base hb n
  have hmax := backoff_max_eq base hb
  simp only [backoff_delay, backoff_step, hmax]
  split <;> [skip; omega]
  split <;> omega

theorem send_loop_zero_delays (cfg : ProgramConfig) (outcomes : Nat → AttemptOutcome)
    (maxd : Int) (attempt : Nat) (delay : Int) :
    (send_loop cfg outcomes maxd 0 attempt delay).delays = [] := by
  rw [send_loop]
  split
  · rfl
  · split
    · rfl
    · rfl
    · split
      · rfl
      · split
        · rfl
        · rfl

theorem send_loop_delays_eq (cfg : ProgramConfig) (outcomes : Nat → AttemptOutcome)
    (base : Int) :
    ∀ remaining attempt,
      ∃ k, (send_loop cfg outcomes (backoff_max base) remaining attempt
              (backoff_delay base attempt)).delays =
        (List.range k).map (fun i => backoff_delay base (attempt + i)) := by
  intro remaining
  induction remaining with
  | zero =>
    intro attempt
    exact ⟨0, by simp [send_loop_zero_delays]⟩
  | succ rem ih =>
    intro attempt
    rw [send_loop]
    by_cases hco : (cfg.provider_anthropic && !cfg.has_key) = true
    · exact ⟨0, by rw [if_pos hco]; simp⟩
    · rw [if_neg hco]
      cases ho : outcomes attempt with
      | allocFail => exact ⟨0, by simp⟩
      | transport =>
        obtain ⟨k, hk⟩ := ih (attempt + 1)
        refine ⟨k + 1, ?_⟩
        simp only
        have hstep : backoff_step (backoff_max base) (backoff_delay base attempt) =
            backoff_delay base (attempt + 1) := rfl
        rw [hstep, hk, List.range_succ_eq_map, List.map_cons, List.map_map, List.cons.injEq]
        refine ⟨by rw [Nat.add_zero], ?_⟩
        apply List.map_congr_left
        intro i _
        simp only [Function.comp]
        congr 1
        omega
      | status code body =>
        simp only
        split
        · exact ⟨0, by simp⟩
        · split
          · obtain ⟨k, hk⟩ := ih (attempt + 1)
            refine ⟨k + 1, ?_⟩
            simp only
            have hstep : backoff_step (backoff_max base) (backoff_delay base attempt) =
                backoff_delay base (attempt + 1) := rfl
            rw [hstep, hk, List.range_succ_eq_map, List.map_cons, List.map_map, List.cons.injEq]
            refine ⟨by rw [Nat.add_zero], ?_⟩
            apply List.map_congr_left
            intro i _
            simp only [Function.comp]
            congr 1
            omega
          · exact ⟨0, by simp⟩

/-- C4 counterexample: with retry_delay = 50 ms (0 < 50 < 100) and a
persistent 503, the one backoff sleep performed is 50 ms — shorter than
100 ms, so the configured delay is NOT floored at 100 ms. -/
theorem backoff_floor_cex :
    (api_client_send
        { chunk_size := 4, max_request_bytes := 100, max_retries := 1, retry_delay_ms := 50,
          network_retry_limit := 2, dry_run := false, provider_anthropic := false,
          has_key := true, rank := 0, world_size := 1 } 10 0
        (fun _ => .status 503 "")).delays = [50] ∧ (50 : Int) < 100 := by
  refine ⟨?_, ?_⟩ <;> decide

/-- C4 (amended): the backoff sequence of `api_client_send` starts at the
configured retry_delay when it is positive (the 100 ms fallback applies
only to retry_delay ≤ 0, so sleeps shorter than 100 ms occur whenever
0 < retry_delay < 100), doubles per attempt, is non-decreasing, and never
exceeds 8 times the base delay: the sleeps performed are successive values
of `backoff_delay` from the base. -/
theorem backoff_sequence_spec (cfg : ProgramConfig) (chunk_len chunk_index : Nat)
    (outcomes : Nat → AttemptOutcome) :
    (∃ k, (api_client_send cfg chunk_len chunk_index outcomes).delays =
        (List.range k).map (backoff_delay (send_base_delay cfg.retry_delay_ms))) ∧
    backoff_delay (send_base_delay cfg.retry_delay_ms) 0 = send_base_delay cfg.retry_delay_ms ∧
    (∀ n, backoff_delay (send_base_delay cfg.retry_delay_ms) n ≤
        backoff_delay (send_base_delay cfg.retry_delay_ms) (n + 1)) ∧
    (∀ n, backoff_delay (send_base_delay cfg.retry_delay_ms) n ≤
        8 * send_base_delay cfg.retry_delay_ms) := by
  have hb := send_base_delay_pos cfg.retry_delay_ms
  refine ⟨?_, rfl, fun n => backoff_delay_mono _ hb n, fun n => (backoff_delay_bounds _ hb n).2⟩
  by_cases hlen : chunk_len > cfg.max_request_bytes
  · refine ⟨0, ?_⟩
    unfold api_client_send
    rw [if_pos hlen]
    simp
  · by_cases hdry : cfg.dry_run = true
    · refine ⟨0, ?_⟩
      unfold api_client_send
      rw [if_neg hlen, if_pos hdry]
      simp
    · rw [api_client_send_eq_loop cfg chunk_len chunk_index outcomes (by omega)
        (by simpa using hdry)]
      obtain ⟨k, hk⟩ := send_loop_delays_eq cfg outcomes
        (send_base_delay cfg.retry_delay_ms) cfg.max_retries.toNat 0
      refine ⟨k, ?_⟩
      rw [show backoff_delay (send_base_delay cfg.retry_delay_ms) 0 =
        send_base_delay cfg.retry_delay_ms from rfl] at hk
      rw [hk]
      apply List.map_congr_left
      intro i _
      rw [Nat.zero_add]

/-- Witness for the amended C4 at a concrete configuration. -/
theorem backoff_sequence_spec_witness :
    (∃ k, (api_client_send
        { chunk_size := 4, max_request_bytes := 100, max_retries := 3, retry_delay_ms := 500,
          network_retry_limit := 2, dry_run := false, provider_anthropic := false,
          has_key := true, rank := 0, world_size := 1 } 10 0
        (fun _ => .status 503 "")).delays =
        (List.range k).map (backoff_delay (send_base_delay 500))) ∧
    backoff_delay (send_base_delay 500) 0 = send_base_delay 500 ∧
    (∀ n, backoff_delay (send_base_delay 500) n ≤ backoff_delay (send_base_delay 500) (n + 1)) ∧
    (∀ n, backoff_delay (send_base_delay 500) n ≤ 8 * send_base_delay 500) :=
  backoff_sequence_spec _ 10 0 _

/-- C5: classification is deterministic — a transient failure on every
attempt (transport failure, or completed status 0/408/429/≥500, e.g. 503)
is reported as NETWORK; a first-attempt non-transient non-2xx status
(e.g. 404) is reported as HTTP; an oversized chunk is reported as
PERMANENT immediately, with zero `curl` attempts and zero sleeps. -/
theorem error_classification_det (cfg : ProgramConfig) (chunk_len chunk_index : Nat)
    (outcomes : Nat → AttemptOutcome)
    (hdry : cfg.dry_run = false)
    (hkey : cfg.provider_anthropic = false ∨ cfg.has_key = true) :
    (chunk_len > cfg.max_request_bytes →
      api_client_send cfg chunk_len chunk_index outcomes =
        { rc := -1, error_type := .permanent, response := Option.none,
          attempts_used := 0, delays := [] }) ∧
    (chunk_len ≤ cfg.max_request_bytes → (∀ n, isTransient (outcomes n)) →
      (api_client_send cfg chunk_len chunk_index outcomes).rc = -1 ∧
      (api_client_send cfg chunk_len chunk_index outcomes).error_type = .network) ∧
    (chunk_len ≤ cfg.max_request_bytes →
      ∀ code body, outcomes 0 = .status code body → ¬ (200 ≤ code ∧ code < 300) →
      ¬ (code = 0 ∨ code = 408 ∨ code = 429 ∨ 500 ≤ code) →
      (api_client_send cfg chunk_len chunk_index outcomes).rc = -1 ∧
      (api_client_send cfg chunk_len chunk_index outcomes).error_type = .http) := by
  have hkey' : (cfg.provider_anthropic && !cfg.has_key) = false := by
    rcases hkey with h | h <;> simp [h]
  refine ⟨?_, ?_, ?_⟩
  · intro hlen
    unfold api_client_send
    rw [if_pos hlen]
  · intro hlen htr
    rw [api_client_send_eq_loop cfg chunk_len chunk_index outcomes hlen hdry]
    exact send_loop_network_of_all_transient cfg outcomes _ hkey' htr _ _ _
  · intro hlen code body hout hns hnt
    rw [api_client_send_eq_loop cfg chunk_len chunk_index outcomes hlen hdry]
    rw [send_loop_http_first_nontransient cfg outcomes _ code body hkey' hout hns hnt _ _]
    exact ⟨rfl, rfl⟩

/-- Witness for C5 at a concrete configuration with a persistent 503. -/
theorem error_classification_det_witness :
    (10 > 100 →
      api_client_send
        { chunk_size := 4, max_request_bytes := 100, max_retries := 3, retry_delay_ms := 500,
          network_retry_limit := 2, dry_run := false, provider_anthropic := false,
          has_key := true, rank := 0, world_size := 1 } 10 0 (fun _ : Nat => AttemptOutcome.status 503 "") =
        { rc := -1, error_type := .permanent, response := Option.none,
          attempts_used := 0, delays := [] }) ∧
    (10 ≤ 100 → (∀ n, isTransient ((fun _ : Nat => AttemptOutcome.status 503 "") n)) →
      (api_client_send
        { chunk_size := 4, max_request_bytes := 100, max_retries := 3, retry_delay_ms := 500,
          network_retry_limit := 2, dry_run := false, provider_anthropic := false,
          has_key := true, rank := 0, world_size := 1 } 10 0 (fun _ : Nat => AttemptOutcome.status 503 "")).rc = -1 ∧
      (api_client_send
        { chunk_size := 4, max_request_bytes := 100, max_retries := 3, retry_delay_ms := 500,
          network_retry_limit := 2, dry_run := false, provider_anthropic := false,
          has_key := true, rank := 0, world_size := 1 } 10 0
        (fun _ : Nat => AttemptOutcome.status 503 "")).error_type = .network) ∧
    (10 ≤ 100 →
      ∀ code body, (fun _ : Nat => AttemptOutcome.status 503 "") 0 = .status code body →
      ¬ (200 ≤ code ∧ code < 300) →
      ¬ (code = 0 ∨ code = 408 ∨ code = 429 ∨ 500 ≤ code) →
      (api_client_send
        { chunk_size := 4, max_request_bytes := 100, max_retries := 3, retry_delay_ms := 500,
          network_retry_limit := 2, dry_run := false, provider_anthropic := false,
          has_key := true, rank := 0, world_size := 1 } 10 0 (fun _ : Nat => AttemptOutcome.status 503 "")).rc = -1 ∧
      (api_client_send
        { chunk_size := 4, max_request_bytes := 100, max_retries := 3, retry_delay_ms := 500,
          network_retry_limit := 2, dry_run := false, provider_anthropic := false,
          has_key := true, rank := 0, world_size := 1 } 10 0
        (fun _ : Nat => AttemptOutcome.status 503 "")).error_type = .http) :=
  error_classification_det
    { chunk_size := 4, max_request_bytes := 100, max_retries := 3, retry_delay_ms := 500,
      network_retry_limit := 2, dry_run := false, provider_anthropic := false,
      has_key := true, rank := 0, world_size := 1 } 10 0
    (fun _ : Nat => AttemptOutcome.status 503 "") rfl (Or.inl rfl)

theorem send_loop_rc_error_type (cfg : ProgramConfig) (outcomes : Nat → AttemptOutcome)
    (maxd : Int) :
    ∀ remaining attempt delay,
      ((send_loop cfg outcomes maxd remaining attempt delay).rc = 0 ∨
        (send_loop cfg outcomes maxd remaining attempt delay).rc = -1) ∧
      ((send_loop cfg outcomes maxd remaining attempt delay).rc = 0 →
        (send_loop cfg outcomes maxd remaining attempt delay).error_type = .none) ∧
      ((send_loop cfg outcomes maxd remaining attempt delay).rc = -1 →
        (send_loop cfg outcomes maxd remaining attempt delay).error_type ≠ .none) := by
  intro remaining
  induction remaining with
  | zero =>
    intro attempt delay
    rw [send_loop]
    split
    · simp
    · split
      · simp
      · simp
      · split
        · simp
        · split
          · simp
          · simp
  | succ rem ih =>
    intro attempt delay
    rw [send_loop]
    split
    · simp
    · split
      · simp
      · simpa using ih (attempt + 1) (backoff_step maxd delay)
      · split
        · simp
        · split
          · simpa using ih (attempt + 1) (backoff_step maxd delay)
          · simp

/-- C10: every failing `api_client_send` call (return -1) stores exactly
one of NETWORK, HTTP or PERMANENT through `error_type` — never NONE — and
every successful call (return 0) leaves it at NONE; the return value is
always 0 or -1. -/
theorem send_error_type_total (cfg : ProgramConfig) (chunk_len chunk_index : Nat)
    (outcomes : Nat → AttemptOutcome) :
    ((api_client_send cfg chunk_len chunk_index outcomes).rc = 0 ∨
      (api_client_send cfg chunk_len chunk_index outcomes).rc = -1) ∧
    ((api_client_send cfg chunk_len chunk_index outcomes).rc = 0 →
      (api_client_send cfg chunk_len chunk_index outcomes).error_type = .none) ∧
    ((api_client_send cfg chunk_len chunk_index outcomes).rc = -1 →
      (api_client_send cfg chunk_len chunk_index outcomes).error_type ≠ .none) := by
  unfold api_client_send
  split
  · simp
  · split
    · simp
    · exact send_loop_rc_error_type cfg outcomes _ _ _ _

/-- Witness for C10 on a concrete failing call. -/
theorem send_error_type_total_witness :
    ((api_client_send
        { chunk_size := 4, max_request_bytes := 100, max_retries := 3, retry_delay_ms := 500,
          network_retry_limit := 2, dry_run := false, provider_anthropic := false,
          has_key := true, rank := 0, world_size := 1 } 10 0 (fun _ => .status 404 "")).rc = 0 ∨
      (api_client_send
        { chunk_size := 4, max_request_bytes := 100, max_retries := 3, retry_delay_ms := 500,
          network_retry_limit := 2, dry_run := false, provider_anthropic := false,
          has_key := true, rank := 0, world_size := 1 } 10 0 (fun _ => .status 404 "")).rc = -1) ∧
    ((api_client_send
        { chunk_size := 4, max_request_bytes := 100, max_retries := 3, retry_delay_ms := 500,
          network_retry_limit := 2, dry_run := false, provider_anthropic := false,
          has_key := true, rank := 0, world_size := 1 } 10 0 (fun _ => .status 404 "")).rc = 0 →
      (api_client_send
        { chunk_size := 4, max_request_bytes := 100, max_retries := 3, retry_delay_ms := 500,
          network_retry_limit := 2, dry_run := false, provider_anthropic := false,
          has_key := true, rank := 0, world_size := 1 } 10 0
        (fun _ => .status 404 "")).error_type = .none) ∧
    ((api_client_send
        { chunk_size := 4, max_request_bytes := 100, max_retries := 3, retry_delay_ms := 500,
          network_retry_limit := 2, dry_run := false, provider_anthropic := false,
          has_key := true, rank := 0, world_size := 1 } 10 0 (fun _ => .status 404 "")).rc = -1 →
      (api_client_send
        { chunk_size := 4, max_request_bytes := 100, max_retries := 3, retry_delay_ms := 500,
          network_retry_limit := 2, dry_run := false, provider_anthropic := false,
          has_key := true, rank := 0, world_size := 1 } 10 0
        (fun _ => .status 404 "")).error_type ≠ .none) :=
  send_error_type_total _ 10 0 _

/-! ## Chunk orchestrator (src/main.c, `process_chunks`) -/

/-- Whether `api_client_init` (src/api_client.c:230-260) succeeds: a key
must be resolvable unless dry_run is set (allocation and
`curl_global_init` failures are outside the model). -/
def api_client_init_ok (cfg : ProgramConfig) : Bool :=
  cfg.has_key || cfg.dry_run

/-- Outcome of the inner per-chunk loop of `process_chunks`
(src/main.c:571-626). -/
inductive ChunkStatus where
  | ok (response : String)
  | failed (e : ApiClientError)
  | aborted
  deriving Repr, DecidableEq

/-- The inner per-chunk loop of `process_chunks` (src/main.c:571-626):
send the chunk; on success record the response; on a NETWORK-classified
failure with reset budget left, rebuild the client and retry the same
chunk (abort the worker if the rebuild fails); otherwise record the
failure.  `oracle iter` supplies the attempt outcomes of the send made on
inner iteration `iter`. -/
def run_chunk (cfg : ProgramConfig) (chunk_len chunk_index : Nat)
    (oracle : Nat → Nat → AttemptOutcome) : Nat → Nat → ChunkStatus
  | resets, iter =>
    let r := api_client_send cfg chunk_len chunk_index (oracle iter)
    if r.rc = 0 then .ok (r.response.getD "")
    else if r.error_type = .network then
      match resets with
      | 0 => .failed r.error_type
      | resets' + 1 =>
        if api_client_init_ok cfg then
          run_chunk cfg chunk_len chunk_index oracle resets' (iter + 1)
        else .aborted
    else .failed r.error_type

/-- Per-worker statistics accumulated by `process_chunks`
(src/main.c:555-557, 639). -/
structure WorkerStats where
  processed : Nat
  failures : Nat
  network_failures : Nat
  deriving Repr, DecidableEq

/-- The chunk loop of `process_chunks` (src/main.c:563-637): drive the
cursor, run each chunk, and tally stats.  `processed` counts every
completed chunk (successful or failed, per src/main.c:632); an abort stops
the worker without counting the aborted chunk.  Also returns the list of
`(chunk_index, start, end, status)` events in order. -/
def process_chunks_loop (cfg : ProgramConfig) (oracle : Nat → Nat → Nat → AttemptOutcome) :
    Nat → ChunkCursor → WorkerStats × List (Nat × Nat × Nat × ChunkStatus)
  | 0, _ => (⟨0, 0, 0⟩, [])
  | fuel + 1, cur =>
    match chunk_cursor_next cur with
    | Option.none => (⟨0, 0, 0⟩, [])
    | some ((start, stop, idx), cur') =>
      match run_chunk cfg (stop - start) idx (oracle idx) cfg.network_retry_limit.toNat 0 with
      | .aborted => (⟨0, 0, 0⟩, [(idx, start, stop, .aborted)])
      | .ok resp =>
        let rest := process_chunks_loop cfg oracle fuel cur'
        (⟨rest.1.processed + 1, rest.1.failures, rest.1.network_failures⟩,
          (idx, start, stop, .ok resp) :: rest.2)
      | .failed e =>
        let rest := process_chunks_loop cfg oracle fuel cur'
        (⟨rest.1.processed + 1, rest.1.failures + 1,
            if e = .network then rest.1.network_failures + 1 else rest.1.network_failures⟩,
          (idx, start, stop, .failed e) :: rest.2)

/-- Embedding of `process_chunks` (src/main.c:526-661) for one worker:
if the client initializes, run the cursor loop over the payload; else do
nothing (stats stay zero).  Fuel `payload_len + 1` covers every chunk the
cursor can emit. -/
def process_chunks (cfg : ProgramConfig) (payload_len : Nat)
    (oracle : Nat → Nat → Nat → AttemptOutcome) :
    WorkerStats × List (Nat × Nat × Nat × ChunkStatus) :=
  if api_client_init_ok cfg then
    process_chunks_loop cfg oracle (payload_len + 1)
      (chunk_cursor_init cfg.chunk_size payload_len cfg.rank cfg.world_size)
  else (⟨0, 0, 0⟩, [])

/-! ## Non-REPL main path (src/main.c, `main`) -/

/-- The `ready` variable of the non-REPL branch of `main`
(src/main.c:855-858): it is set only on rank 0 (`if (rank == 0) ready =
(gather_payload_root(...) == 0)`) and is never communicated before the
branch at line 859. -/
def main_nonrepl_ready (rank : Nat) (root_capture_ok : Bool) : Bool :=
  if rank = 0 then root_capture_ok else false

/-- Whether a rank calls `execute_payload` in the non-REPL path
(src/main.c:859-868): exactly when its local `ready` is nonzero. -/
def main_nonrepl_participates (rank : Nat) (root_capture_ok : Bool) : Bool :=
  main_nonrepl_ready rank root_capture_ok

/-! ## Configuration (src/app_config.c, src/main.c) -/

def DEEPSEEK_MIN_CHUNK_SIZE : Nat := 128

def DEEPSEEK_DEFAULT_RETRY_DELAY_MS : Int := 500

def DEEPSEEK_AUTOSCALE_DEFAULT_FACTOR : Int := 2

def DEEPSEEK_AUTOSCALE_DEFAULT_THRESHOLD : Nat := 100 * 1024 * 1024

/-- Embedding of `AutoScaleMode` (src/app_config.h). -/
inductive AutoScaleMode where
  | off
  | threads
  | chunks
  deriving Repr, DecidableEq

/-- The slice of `ProgramConfig` read and written by `config_finalize`,
`maybe_adjust_chunk_from_tasks` and `maybe_autoscale_payload`. -/
structure AppConfig where
  chunk_size : Nat
  max_request_bytes : Nat
  max_retries : Int
  retry_delay_ms : Int
  network_retry_limit : Int
  target_tasks : Nat
  target_tasks_set : Bool
  auto_scale_mode : AutoScaleMode
  auto_scale_threshold_bytes : Nat
  auto_scale_factor : Int
  world_size : Nat
  deriving Repr, DecidableEq

/-- Embedding of `config_finalize` (src/app_config.c:693-740), restricted
to the modelled fields (the timeout, progress, verbosity, output-token and
TUI clauses touch only fields outside the model; each C clause updates a
distinct field, with `max_request_bytes` reading the already-clamped
`chunk_size`, as in the source). -/
def config_finalize (c : AppConfig) : AppConfig :=
  let chunk := if c.chunk_size < DEEPSEEK_MIN_CHUNK_SIZE then DEEPSEEK_MIN_CHUNK_SIZE
    else c.chunk_size
  let maxreq := if c.max_request_bytes < chunk then chunk * 2 else c.max_request_bytes
  { c with
    chunk_size := chunk
    max_request_bytes := maxreq
    max_retries := if c.max_retries < 0 then 0 else c.max_retries
    retry_delay_ms := if c.retry_delay_ms < 0 then DEEPSEEK_DEFAULT_RETRY_DELAY_MS
      else c.retry_delay_ms
    network_retry_limit := if c.network_retry_limit < 0 then 0 else c.network_retry_limit
    auto_scale_factor := if c.auto_scale_factor < 1 then DEEPSEEK_AUTOSCALE_DEFAULT_FACTOR
      else c.auto_scale_factor
    auto_scale_threshold_bytes := if c.auto_scale_threshold_bytes = 0 then
      DEEPSEEK_AUTOSCALE_DEFAULT_THRESHOLD else c.auto_scale_threshold_bytes }

/-- Embedding of `maybe_adjust_chunk_from_tasks` (src/main.c:231-256):
derive chunk_size = ceil(payload_len / tasks), floor it at
DEEPSEEK_MIN_CHUNK_SIZE, cap it at payload_len (in that order), and raise
max_request_bytes to the result if it is below it. -/
def maybe_adjust_chunk_from_tasks (c : AppConfig) (payload_len : Nat) : AppConfig :=
  if c.target_tasks_set = false ∨ c.target_tasks = 0 ∨ payload_len = 0 then c
  else
    let tasks := c.target_tasks
    let chunk0 := payload_len / tasks
    let chunk1 := if payload_len % tasks ≠ 0 then chunk0 + 1 else chunk0
    let chunk2 := if chunk1 < DEEPSEEK_MIN_CHUNK_SIZE then DEEPSEEK_MIN_CHUNK_SIZE else chunk1
    let chunk3 := if chunk2 > payload_len then payload_len else chunk2
    { c with
      chunk_size := chunk3
      max_request_bytes := if c.max_request_bytes < chunk3 then chunk3
        else c.max_request_bytes }

/-- Embedding of `maybe_autoscale_payload` (src/main.c:258-291).  In
"chunks" mode past the threshold, the task target becomes (explicit
target if set and nonzero, else world size, floored at 1) times the
factor, and is marked explicitly set; "threads" mode only logs. -/
def maybe_autoscale_payload (c : AppConfig) (payload_len : Nat) : AppConfig :=
  if c.auto_scale_mode = AutoScaleMode.off then c
  else if c.auto_scale_threshold_bytes = 0 ∨ c.auto_scale_factor ≤ 0 then c
  else if payload_len < c.auto_scale_threshold_bytes then c
  else if c.auto_scale_mode = AutoScaleMode.chunks then
    let base0 := if c.target_tasks_set = true ∧ 0 < c.target_tasks then c.target_tasks
      else c.world_size
    let base := if base0 = 0 then 1 else base0
    let scaled0 := base * c.auto_scale_factor.toNat
    let scaled := if scaled0 = 0 then base else scaled0
    { c with target_tasks := scaled, target_tasks_set := true }
  else c

/-! ## JSON string escaping (src/api_client.c, `json_escape`) -/

/-- One digit of `snprintf`'s lowercase `%x`, as an ASCII code. -/
def hexDigit (d : Nat) : Nat :=
  if d < 10 then 48 + d else 87 + d

/-- Embedding of the per-byte emission of `json_escape`
(src/api_client.c:81-112): backslash and quote are backslash-escaped,
newline, carriage return and tab become \n, \r, \t, every other byte
below 0x20 becomes \u00XX (lowercase hex), and everything else is copied
verbatim.  Bytes are ASCII codes. -/
def json_escape_byte (b : Nat) : List Nat :=
  if b = 92 then [92, 92]
  else if b = 34 then [92, 34]
  else if b = 10 then [92, 110]
  else if b = 13 then [92, 114]
  else if b = 9 then [92, 116]
  else if b < 32 then [92, 117, 48, 48, hexDigit (b / 16), hexDigit (b % 16)]
  else [b]

/-- Embedding of `json_escape` (src/api_client.c:47-115) on a byte
string. -/
def json_escape (s : List Nat) : List Nat :=
  s.flatMap json_escape_byte

/-- Value of a hexadecimal digit character (0-9, a-f, A-F). -/
def hexVal (ch : Nat) : Option Nat :=
  if 48 ≤ ch ∧ ch ≤ 57 then some (ch - 48)
  else if 97 ≤ ch ∧ ch ≤ 102 then some (ch - 87)
  else if 65 ≤ ch ∧ ch ≤ 70 then some (ch - 55)
  else Option.none

/-- Standard JSON string unescaping, written from the spec's words as the
comparison point for the round-trip property (the repository contains no
unescaper): a backslash introduces one of the escapes \\ \" \/ \b \f \n
\r \t or \uXXXX, any other byte stands for itself, and a malformed escape
rejects the string. -/
def json_unescape_std : List Nat → Option (List Nat)
  | [] => some []
  | c :: rest =>
    if c = 92 then
      match rest[0]? with
      | Option.none => Option.none
      | some e =>
        if e = 92 then (json_unescape_std (rest.drop 1)).map (fun t => 92 :: t)
        else if e = 34 then (json_unescape_std (rest.drop 1)).map (fun t => 34 :: t)
        else if e = 47 then (json_unescape_std (rest.drop 1)).map (fun t => 47 :: t)
        else if e = 98 then (json_unescape_std (rest.drop 1)).map (fun t => 8 :: t)
        else if e = 102 then (json_unescape_std (rest.drop 1)).map (fun t => 12 :: t)
        else if e = 110 then (json_unescape_std (rest.drop 1)).map (fun t => 10 :: t)
        else if e = 114 then (json_unescape_std (rest.drop 1)).map (fun t => 13 :: t)
        else if e = 116 then (json_unescape_std (rest.drop 1)).map (fun t => 9 :: t)
        else if e = 117 then
          match rest[1]?, rest[2]?, rest[3]?, rest[4]? with
          | some h1, some h2, some h3, some h4 =>
            (hexVal h1).bind fun v1 =>
            (hexVal h2).bind fun v2 =>
            (hexVal h3).bind fun v3 =>
            (hexVal h4).bind fun v4 =>
            (json_unescape_std (rest.drop 5)).map
              (fun t => (v1 * 4096 + v2 * 256 + v3 * 16 + v4) :: t)
          | _, _, _, _ => Option.none
        else Option.none
    else (json_unescape_std rest).map (fun t => c :: t)
termination_by l => l.length
decreasing_by all_goals (simp only [List.length_drop, List.length_cons]; omega)

theorem api_client_send_dry (cfg : ProgramConfig) (chunk_len chunk_index : Nat)
    (outcomes : Nat → AttemptOutcome) (hdry : cfg.dry_run = true)
    (hlen : chunk_len ≤ cfg.max_request_bytes) :
    api_client_send cfg chunk_len chunk_index outcomes =
      { rc := 0, error_type := .none, response := some (dry_run_response chunk_index),
        attempts_used := 0, delays := [] } := by
  unfold api_client_send
  rw [if_neg (by omega), if_pos hdry]

theorem run_chunk_dry (cfg : ProgramConfig) (chunk_len chunk_index : Nat)
    (oracle : Nat → Nat → AttemptOutcome) (resets iter : Nat)
    (hdry : cfg.dry_run = true) (hlen : chunk_len ≤ cfg.max_request_bytes) :
    run_chunk cfg chunk_len chunk_index oracle resets iter =
      .ok (dry_run_response chunk_index) := by
  cases resets <;>
    · rw [run_chunk, api_client_send_dry cfg chunk_len chunk_index _ hdry hlen]
      simp

/-- C6: with dry_run, payload length 11 ("hello world"), chunk_size 4,
world_size 1, rank 0 and max_request_bytes ≥ 4, the worker performs
exactly 3 sends covering [0,4), [4,8), [8,11) with global indices 0, 1, 2,
each skipping the network and yielding the synthetic success tagged with
its chunk index, and the final stats are processed = 3, failures = 0,
network_failures = 0 — whatever the network would have answered. -/
theorem dry_run_end_to_end (m : Nat) (oracle : Nat → Nat → Nat → AttemptOutcome)
    (hm : 4 ≤ m) :
    process_chunks
      { chunk_size := 4, max_request_bytes := m, max_retries := 3, retry_delay_ms := 500,
        network_retry_limit := 2, dry_run := true, provider_anthropic := false,
        has_key := false, rank := 0, world_size := 1 } 11 oracle =
      (⟨3, 0, 0⟩,
        [(0, 0, 4, .ok (dry_run_response 0)),
         (1, 4, 8, .ok (dry_run_response 1)),
         (2, 8, 11, .ok (dry_run_response 2))]) := by
  have hm3 : 3 ≤ m := by omega
  have hdr : ∀ (len idx : Nat) (oc : Nat → Nat → AttemptOutcome) (resets iter : Nat),
      len ≤ m →
      run_chunk
        { chunk_size := 4, max_request_bytes := m, max_retries := 3, retry_delay_ms := 500,
          network_retry_limit := 2, dry_run := true, provider_anthropic := false,
          has_key := false, rank := 0, world_size := 1 } len idx oc resets iter =
        .ok (dry_run_response idx) :=
    fun len idx oc resets iter hlen => run_chunk_dry _ len idx oc resets iter rfl hlen
  simp [process_chunks, process_chunks_loop, chunk_cursor_init, chunk_cursor_next,
    api_client_init_ok, hdr, hm, hm3]

/-- Witness for C6 at max_request_bytes = 4 and a concrete oracle. -/
theorem dry_run_end_to_end_witness :
    4 ≤ 4 ∧
    process_chunks
      { chunk_size := 4, max_request_bytes := 4, max_retries := 3, retry_delay_ms := 500,
        network_retry_limit := 2, dry_run := true, provider_anthropic := false,
        has_key := false, rank := 0, world_size := 1 } 11 (fun _ _ _ => .transport) =
      (⟨3, 0, 0⟩,
        [(0, 0, 4, .ok (dry_run_response 0)),
         (1, 4, 8, .ok (dry_run_response 1)),
         (2, 8, 11, .ok (dry_run_response 2))]) :=
  ⟨by decide, dry_run_end_to_end 4 (fun _ _ _ => .transport) (by decide)⟩

/-- C3 (evaluation of the code at the failing input): in the non-REPL
path of `main`, the `ready` flag is computed only on rank 0 and never
broadcast before the branch, so a non-lead rank never calls
`execute_payload` — even when the lead worker captured a payload — and
hence never receives the broadcast configuration or payload and never
runs the chunk orchestrator, while rank 0 does call it. -/
theorem nonrepl_nonroot_skips_execute :
    main_nonrepl_participates 1 true = false ∧
    main_nonrepl_participates 0 true = true := by
  decide

/-- C7 counterexample: a finalized configuration with tasks = 1 and a
1-byte payload yields chunk_size = 1, below the configured minimum of
128, because the payload-length cap is applied after the minimum floor. -/
theorem chunk_min_invariant_cex :
    (maybe_adjust_chunk_from_tasks
        (config_finalize
          { chunk_size := 2048, max_request_bytes := 16384, max_retries := 3,
            retry_delay_ms := 500, network_retry_limit := 2, target_tasks := 1,
            target_tasks_set := true, auto_scale_mode := .off,
            auto_scale_threshold_bytes := 104857600, auto_scale_factor := 2,
            world_size := 1 }) 1).chunk_size = 1 ∧
    ¬ DEEPSEEK_MIN_CHUNK_SIZE ≤
      (maybe_adjust_chunk_from_tasks
        (config_finalize
          { chunk_size := 2048, max_request_bytes := 16384, max_retries := 3,
            retry_delay_ms := 500, network_retry_limit := 2, target_tasks := 1,
            target_tasks_set := true, auto_scale_mode := .off,
            auto_scale_threshold_bytes := 104857600, auto_scale_factor := 2,
            world_size := 1 }) 1).chunk_size := by
  refine ⟨?_, ?_⟩ <;> decide

/-- C7 (amended): after `config_finalize` and the task-target derivation,
chunk_size is at least min(DEEPSEEK_MIN_CHUNK_SIZE, payload_len) — the
configured minimum holds only up to the payload length, since the cap at
payload_len is applied after the floor — and max_request_bytes ≥
chunk_size always holds. -/
theorem chunk_tasks_invariant (c : AppConfig) (payload_len : Nat)
    (hlen : 0 < payload_len) (hset : c.target_tasks_set = true)
    (htasks : 0 < c.target_tasks) :
    min DEEPSEEK_MIN_CHUNK_SIZE payload_len ≤
      (maybe_adjust_chunk_from_tasks (config_finalize c) payload_len).chunk_size ∧
    (maybe_adjust_chunk_from_tasks (config_finalize c) payload_len).chunk_size ≤
      (maybe_adjust_chunk_from_tasks (config_finalize c) payload_len).max_request_bytes := by
  have hcond : ¬ ((config_finalize c).target_tasks_set = false ∨
      (config_finalize c).target_tasks = 0 ∨ payload_len = 0) := by
    push_neg
    refine ⟨?_, ?_, by omega⟩
    · show c.target_tasks_set ≠ false
      simp [hset]
    · show c.target_tasks ≠ 0
      omega
  unfold maybe_adjust_chunk_from_tasks
  rw [if_neg hcond]
  simp only
  unfold DEEPSEEK_MIN_CHUNK_SIZE
  refine ⟨?_, ?_⟩ <;> (repeat' split) <;> omega

/-- Witness for the amended C7. -/
theorem chunk_tasks_invariant_witness :
    0 < 1000 ∧
    (min DEEPSEEK_MIN_CHUNK_SIZE 1000 ≤
      (maybe_adjust_chunk_from_tasks
        (config_finalize
          { chunk_size := 2048, max_request_bytes := 16384, max_retries := 3,
            retry_delay_ms := 500, network_retry_limit := 2, target_tasks := 3,
            target_tasks_set := true, auto_scale_mode := .off,
            auto_scale_threshold_bytes := 104857600, auto_scale_factor := 2,
            world_size := 1 }) 1000).chunk_size ∧
     (maybe_adjust_chunk_from_tasks
        (config_finalize
          { chunk_size := 2048, max_request_bytes := 16384, max_retries := 3,
            retry_delay_ms := 500, network_retry_limit := 2, target_tasks := 3,
            target_tasks_set := true, auto_scale_mode := .off,
            auto_scale_threshold_bytes := 104857600, auto_scale_factor := 2,
            world_size := 1 }) 1000).chunk_size ≤
      (maybe_adjust_chunk_from_tasks
        (config_finalize
          { chunk_size := 2048, max_request_bytes := 16384, max_retries := 3,
            retry_delay_ms := 500, network_retry_limit := 2, target_tasks := 3,
            target_tasks_set := true, auto_scale_mode := .off,
            auto_scale_threshold_bytes := 104857600, auto_scale_factor := 2,
            world_size := 1 }) 1000).max_request_bytes) :=
  ⟨by decide,
    chunk_tasks_invariant
      { chunk_size := 2048, max_request_bytes := 16384, max_retries := 3,
        retry_delay_ms := 500, network_retry_limit := 2, target_tasks := 3,
        target_tasks_set := true, auto_scale_mode := .off,
        auto_scale_threshold_bytes := 104857600, auto_scale_factor := 2,
        world_size := 1 } 1000 (by decide) rfl (by decide)⟩

/-- C9: with autoscaling in "chunks" mode, a valid threshold and factor,
a payload of exactly the threshold length triggers scaling — the task
target becomes (the explicit override if set, else the world size) times
the factor, marked explicitly set — while a payload one byte shorter
leaves the configuration unchanged. -/
theorem autoscale_boundary (c : AppConfig)
    (hmode : c.auto_scale_mode = AutoScaleMode.chunks)
    (hthr : 0 < c.auto_scale_threshold_bytes)
    (hfac : 0 < c.auto_scale_factor)
    (hset : c.target_tasks_set = true → 0 < c.target_tasks)
    (hws : 0 < c.world_size) :
    ((maybe_autoscale_payload c c.auto_scale_threshold_bytes).target_tasks =
        (if c.target_tasks_set then c.target_tasks else c.world_size) *
          c.auto_scale_factor.toNat ∧
      (maybe_autoscale_payload c c.auto_scale_threshold_bytes).target_tasks_set = true) ∧
    maybe_autoscale_payload c (c.auto_scale_threshold_bytes - 1) = c := by
  have hmode' : c.auto_scale_mode ≠ AutoScaleMode.off := by
    rw [hmode]
    intro h
    cases h
  have hvalid : ¬ (c.auto_scale_threshold_bytes = 0 ∨ c.auto_scale_factor ≤ 0) := by
    push_neg
    exact ⟨by omega, by omega⟩
  have htn : 0 < c.auto_scale_factor.toNat := by omega
  constructor
  · unfold maybe_autoscale_payload
    rw [if_neg hmode', if_neg hvalid, if_neg (by omega), if_pos hmode]
    simp only
    by_cases hs : c.target_tasks_set = true
    · have ht := hset hs
      have hb0 : (if c.target_tasks_set = true ∧ 0 < c.target_tasks then c.target_tasks
          else c.world_size) = c.target_tasks := if_pos ⟨hs, ht⟩
      rw [hb0, if_neg (by omega : ¬ c.target_tasks = 0),
        if_neg (Nat.mul_ne_zero (by omega) (by omega)), if_pos hs]
      exact ⟨rfl, trivial⟩
    · have hb0 : (if c.target_tasks_set = true ∧ 0 < c.target_tasks then c.target_tasks
          else c.world_size) = c.world_size := if_neg (by simp [hs])
      rw [hb0, if_neg (by omega : ¬ c.world_size = 0),
        if_neg (Nat.mul_ne_zero (by omega) (by omega)), if_neg hs]
      exact ⟨rfl, trivial⟩
  · unfold maybe_autoscale_payload
    rw [if_neg hmode', if_neg hvalid, if_pos (by omega)]

/-- Witness for C9 at a concrete configuration (threshold 1000,
factor 2, no explicit override, world size 4). -/
theorem autoscale_boundary_witness :
    ((maybe_autoscale_payload
        { chunk_size := 2048, max_request_bytes := 16384, max_retries := 3,
          retry_delay_ms := 500, network_retry_limit := 2, target_tasks := 0,
          target_tasks_set := false, auto_scale_mode := .chunks,
          auto_scale_threshold_bytes := 1000, auto_scale_factor := 2,
          world_size := 4 } 1000).target_tasks = (if false then 0 else 4) * (2 : Int).toNat ∧
      (maybe_autoscale_payload
        { chunk_size := 2048, max_request_bytes := 16384, max_retries := 3,
          retry_delay_ms := 500, network_retry_limit := 2, target_tasks := 0,
          target_tasks_set := false, auto_scale_mode := .chunks,
          auto_scale_threshold_bytes := 1000, auto_scale_factor := 2,
          world_size := 4 } 1000).target_tasks_set = true) ∧
    maybe_autoscale_payload
        { chunk_size := 2048, max_request_bytes := 16384, max_retries := 3,
          retry_delay_ms := 500, network_retry_limit := 2, target_tasks := 0,
          target_tasks_set := false, auto_scale_mode := .chunks,
          auto_scale_threshold_bytes := 1000, auto_scale_factor := 2,
          world_size := 4 } 999 =
      { chunk_size := 2048, max_request_bytes := 16384, max_retries := 3,
        retry_delay_ms := 500, network_retry_limit := 2, target_tasks := 0,
        target_tasks_set := false, auto_scale_mode := .chunks,
        auto_scale_threshold_bytes := 1000, auto_scale_factor := 2,
        world_size := 4 } :=
  autoscale_boundary
    { chunk_size := 2048, max_request_bytes := 16384, max_retries := 3,
      retry_delay_ms := 500, network_retry_limit := 2, target_tasks := 0,
      target_tasks_set := false, auto_scale_mode := .chunks,
      auto_scale_threshold_bytes := 1000, auto_scale_factor := 2,
      world_size := 4 } rfl (by decide) (by decide) (fun h => by cases h) (by decide)

theorem hexVal_hexDigit (x : Nat) (hx : x < 16) : hexVal (hexDigit x) = some x := by
  interval_cases x <;> rfl

theorem json_unescape_cons_ne (b : Nat) (hb : b ≠ 92) (t : List Nat) :
    json_unescape_std (b :: t) = (json_unescape_std t).map (fun u => b :: u) := by
  rw [json_unescape_std]
  rw [if_neg hb]

theorem json_unescape_escape_byte (b : Nat) (_hb : b < 256) (t : List Nat) :
    json_unescape_std (json_escape_byte b ++ t) =
      (json_unescape_std t).map (fun u => b :: u) := by
  by_cases h92 : b = 92
  · subst h92
    simp [json_escape_byte, json_unescape_std]
  by_cases h34 : b = 34
  · subst h34
    simp [json_escape_byte, json_unescape_std]
  by_cases h10 : b = 10
  · subst h10
    simp [json_escape_byte, json_unescape_std]
  by_cases h13 : b = 13
  · subst h13
    simp [json_escape_byte, json_unescape_std]
  by_cases h9 : b = 9
  · subst h9
    simp [json_escape_byte, json_unescape_std]
  by_cases hlt : b < 32
  · have e1 : hexVal (hexDigit (b / 16)) = some (b / 16) := hexVal_hexDigit _ (by omega)
    have e2 : hexVal (hexDigit (b % 16)) = some (b % 16) := hexVal_hexDigit _ (by omega)
    have e48 : hexVal 48 = some 0 := rfl
    have hesc : json_escape_byte b =
        [92, 117, 48, 48, hexDigit (b / 16), hexDigit (b % 16)] := by
      simp [json_escape_byte, h92, h34, h10, h13, h9, hlt]
    rw [hesc]
    simp only [List.cons_append, List.nil_append]
    simp [json_unescape_std, e48, e1, e2]
    have hv : b / 16 * 16 + b % 16 = b := by omega
    rw [hv]
  · have hesc : json_escape_byte b = [b] := by
      simp [json_escape_byte, h92, h34, h10, h13, h9, hlt]
    rw [hesc]
    simp only [List.cons_append, List.nil_append]
    exact json_unescape_cons_ne b h92 t

/-- C8: for every byte string — in particular one containing the quote,
the backslash, the newline and the control byte 0x01 — applying
`json_escape` and then standard JSON unescaping reproduces the original
bytes exactly. -/
theorem json_escape_roundtrip (s : List Nat) (hs : ∀ b ∈ s, b < 256) :
    json_unescape_std (json_escape s) = some s := by
  induction s with
  | nil => simp [json_escape, json_unescape_std]
  | cons b t ih =>
    have hb : b < 256 := hs b (List.mem_cons_self b t)
    have ht : ∀ x ∈ t, x < 256 := fun x hx => hs x (List.mem_cons_of_mem _ hx)
    have hsplit : json_escape (b :: t) = json_escape_byte b ++ json_escape t := by
      simp [json_escape]
    rw [hsplit, json_unescape_escape_byte b hb, ih ht]
    rfl

/-- Witness for C8 on the bytes " \ LF 0x01 h i. -/
theorem json_escape_roundtrip_witness :
    (∀ b ∈ [34, 92, 10, 1, 104, 105], b < 256) ∧
    json_unescape_std (json_escape [34, 92, 10, 1, 104, 105]) =
      some [34, 92, 10, 1, 104, 105] :=
  ⟨by decide, json_escape_roundtrip [34, 92, 10, 1, 104, 105] (by decide)⟩

end DeepseekMpi
